import Mathlib

/-!
A shallow embedding of `dl.go` (package `dl`, HenrySlawniak/dl).

The package wraps Go net/http: it fetches URL bodies, and conditionally
downloads a URL to a file, skipping the download when the on-disk size
equals the advertised `Content-Length`.

Modelling conventions:
- Bytes are `Nat`, byte strings are `List Nat`; Go `int64` counts are `Int`.
- The HTTP header map (`http.Header`, used single-valued here since the
  code only calls `Set`, `Get` and `AddCookie`) is a total function from
  canonical header names to values, with `""` standing for an absent key,
  exactly matching the observable behaviour of `Header.Get`.
- External effects (request construction, the two `client.Do` calls, the
  filesystem) are an explicit environment `DLEnv` of oracles; the local
  file at `fileloc` is `Option (List Nat)` (its contents when it exists).
  `os.Stat` inside `FileExists` is modelled as succeeding exactly on
  existing files.
- Go panics (here: dereferencing a nil `*[]*http.Cookie`) are a
  distinguished result constructor; the cookies argument is
  `Option (List Cookie)` with `none` for the nil pointer.
-/

namespace Dl

/-- Error values of the modelled external calls (`error` in Go). -/
abbrev Err := String

/-- ASCII digit test, as used by `strconv.ParseUint` in base 10. -/
def isDigitChar (c : Char) : Bool := 48 ≤ c.toNat ∧ c.toNat ≤ 57

/-- `strconv.ParseUint(s, 10, 64)` restricted to the digit run after the
sign: `none` on an empty run or any non-digit byte (Go ErrSyntax). -/
def parseUintDigits : List Char → Option Nat
  | [] => none
  | ds => ds.foldlM (fun acc c => if isDigitChar c then some (acc * 10 + (c.toNat - 48)) else none) 0

/-- `strconv.ParseInt(s, 10, 0)` on a 64-bit platform: returns the Go pair
`(value, err)` as `(value, ok)`.  On syntax errors Go returns `(0, ErrSyntax)`;
on range errors it returns the clamped `math.MaxInt64` / `math.MinInt64`
with ErrRange.  Base 10 admits an optional leading `+` or `-` sign and no
underscores. -/
def parseIntGo (s : String) : Int × Bool :=
  match s.data with
  | [] => (0, false)
  | c :: rest =>
    let neg := c.toNat == 45
    let ds := if c.toNat == 45 || c.toNat == 43 then rest else c :: rest
    match parseUintDigits ds with
    | none => (0, false)
    | some n =>
      if neg then
        if n > 2 ^ 63 then (-(2 ^ 63), false) else (-(n : Int), true)
      else
        if n ≥ 2 ^ 63 then (2 ^ 63 - 1, false) else ((n : Int), true)

/-- The successfully parsed value of `strconv.ParseInt(s, 10, 0)`:
`some` exactly when Go reports `err == nil`. -/
def parseInt (s : String) : Option Int :=
  if (parseIntGo s).2 then some (parseIntGo s).1 else none

/-- Go `net/textproto` `validHeaderFieldByte`: letters, digits and the
token characters of RFC 7230 (codes listed explicitly). -/
def isTokenChar (c : Char) : Bool :=
  let n := c.toNat
  (65 ≤ n && n ≤ 90) || (97 ≤ n && n ≤ 122) || (48 ≤ n && n ≤ 57) ||
    n == 33 || n == 35 || n == 36 || n == 37 || n == 38 || n == 39 ||
    n == 42 || n == 43 || n == 45 || n == 46 || n == 94 || n == 95 ||
    n == 96 || n == 124 || n == 126

/-- The character loop of `textproto.CanonicalMIMEHeaderKey`: uppercase at
the start of the key and after each hyphen (code 45), lowercase elsewhere. -/
def canonChars : Bool → List Char → List Char
  | _, [] => []
  | up, c :: cs =>
    (if up then c.toUpper else c.toLower) :: canonChars (c.toNat == 45) cs

/-- `textproto.CanonicalMIMEHeaderKey`: keys containing an invalid header
byte are returned unchanged, otherwise the key is canonicalised. -/
def canonicalKey (s : String) : String :=
  if s.data.all isTokenChar then ⟨canonChars true s.data⟩ else s

/-- The header map of an outbound request or a received response
(`http.Header` seen through `Set`/`Get`): canonical name to value,
`""` when absent. -/
abbrev Header := String → String

/-- The empty header map (every `Get` yields `""`). -/
def hEmpty : Header := fun _ => ""

/-- `Header.Set`: canonicalises the name and replaces the value. -/
def hSet (h : Header) (k v : String) : Header :=
  fun q => if q == canonicalKey k then v else h q

/-- `Header.Get`: canonicalises the name and looks it up (`""` if absent). -/
def hGet (h : Header) (k : String) : String := h (canonicalKey k)

/-- An `http.Cookie` restricted to the fields `AddCookie` serialises. -/
structure Cookie where
  name : String
  value : String

/-- The `name=value` pair `Request.AddCookie` appends (cookie
name/value sanitisation is the identity on well-formed cookies). -/
def cookieString (c : Cookie) : String := c.name ++ "=" ++ c.value

/-- `Request.AddCookie`: appends `name=value` to the `Cookie` header,
separated by `"; "` when one is already present. -/
def addCookie (h : Header) (c : Cookie) : Header :=
  let s := cookieString c
  let old := hGet h "Cookie"
  if old = "" then hSet h "Cookie" s else hSet h "Cookie" (old ++ "; " ++ s)

/-- The header state of the outbound request each function builds
(lines 105-111 of dl.go and their copies): `Set("User-Agent", userAgent)`,
then `AddCookie` for each cookie in order, then `Set(k, v)` for each entry
of the headers map (the list order standing for the iteration order of the
Go map; keys of a Go map are unique). -/
def buildReq (ua : String) (headers : List (String × String)) (cookies : List Cookie) : Header :=
  let h := hSet hEmpty "User-Agent" ua
  let h := cookies.foldl addCookie h
  headers.foldl (fun h p => hSet h p.1 p.2) h

/-- The default value of the process-wide `userAgent` variable. -/
def defaultUserAgent : String := "dl v0.0.1"

/-- An HTTP response as delivered by `client.Do` together with a fully
read body (a body-streaming failure is folded into the transport error of
the oracle that produces the response). -/
structure Response where
  status : Nat
  headers : Header
  body : List Nat

/-- `FileExists` (dl.go line 47): `os.Stat` succeeds exactly on existing
files in this model, so existence is `isSome` of the file contents. -/
def FileExists (fs : Option (List Nat)) : Bool := fs.isSome

/-- External-world oracles for one `GetBodyFromURL` / `GetRespFromURL`
call: whether `http.NewRequest` fails for the given URL, and the outcome
of `client.Do`. -/
structure GetEnv where
  newReqErr : Option Err
  doResult : Except Err Response

/-- Result of a Go function returning `(T, error)` where a nil-pointer
dereference may also panic. -/
inductive GRes (α : Type) where
  | panics : GRes α
  | fails (e : Err) : GRes α
  | ok (v : α) : GRes α
deriving DecidableEq

/-- `GetBodyFromURL` (dl.go lines 55-76): builds the request, attaches
the user agent, cookies (dereferencing the cookies pointer: nil panics)
and headers, executes it and returns `ioutil.ReadAll` of the body. -/
def GetBodyFromURL (env : GetEnv) (ua : String) (headers : List (String × String))
    (cookies : Option (List Cookie)) : GRes (List Nat) :=
  match env.newReqErr with
  | some e => .fails e
  | none =>
    match cookies with
    | none => .panics
    | some cs =>
      let _req := buildReq ua headers cs
      match env.doResult with
      | .error e => .fails e
      | .ok resp => .ok resp.body

/-- `GetRespFromURL` (dl.go lines 79-95): same request construction as
`GetBodyFromURL`, returning `client.Do` itself. -/
def GetRespFromURL (env : GetEnv) (ua : String) (headers : List (String × String))
    (cookies : Option (List Cookie)) : GRes Response :=
  match env.newReqErr with
  | some e => .fails e
  | none =>
    match cookies with
    | none => .panics
    | some cs =>
      let _req := buildReq ua headers cs
      match env.doResult with
      | .error e => .fails e
      | .ok resp => .ok resp

/-- External-world oracles for one `DownloadFile` call.  `newReqErr` is
shared by the `http.NewRequest` calls in `DownloadFile` and
`writeToFileFromURL` (same method and URL, so the same deterministic
outcome); the two `client.Do` calls are distinct network events.
`copyOutcome = some (n, e)` means `io.Copy` stops with error `e` after
writing the first `n` body bytes. -/
structure DLEnv where
  newReqErr : Option Err
  headResult : Except Err Response
  openErr : Option Err
  statErr : Option Err
  getResult : Except Err Response
  openFileErr : Option Err
  createErr : Option Err
  copyOutcome : Option (Nat × Err)

/-- Result of a Go function returning `(int64, error)`: a panic, a
failure carrying the returned count and error, or a success count. -/
inductive DLRes where
  | panics : DLRes
  | fails (n : Int) (e : Err) : DLRes
  | ok (n : Int) : DLRes
deriving DecidableEq

/-- Observable outcome of `writeToFileFromURL`: final file contents,
returned pair, whether the GET was executed, and the length figure shown
in the `Downloading` progress line (`none` when that line never prints). -/
structure WOut where
  fs : Option (List Nat)
  res : DLRes
  issued : Bool
  shownLength : Option Int
deriving DecidableEq

/-- `writeToFileFromURL` (dl.go lines 157-209): unconditional download.
Builds the same request, executes it, parses `Content-Length` of the
response only for the progress message (`length` is Go 0 / a clamped
value on parse failure), then opens the existing file with `O_RDWR`
(no truncation: the body overwrites the front, any longer old tail
survives) or creates it, and `io.Copy`s the body into it. -/
def writeToFileFromURL (env : DLEnv) (ua : String) (headers : List (String × String))
    (cookies : Option (List Cookie)) (fs : Option (List Nat)) : WOut :=
  match env.newReqErr with
  | some e => ⟨fs, .fails 0 e, false, none⟩
  | none =>
  match cookies with
  | none => ⟨fs, .panics, false, none⟩
  | some cs =>
    let _req := buildReq ua headers cs
    match env.getResult with
    | .error e => ⟨fs, .fails 0 e, true, none⟩
    | .ok resp =>
      let length := (parseIntGo (hGet resp.headers "Content-Length")).1
      match fs with
      | some old =>
        match env.openFileErr with
        | some e => ⟨some old, .fails 0 e, true, none⟩
        | none =>
          match env.copyOutcome with
          | some (n, e) =>
            let written := resp.body.take n
            ⟨some (written ++ old.drop written.length), .fails written.length e, true, some length⟩
          | none =>
            ⟨some (resp.body ++ old.drop resp.body.length), .ok resp.body.length, true, some length⟩
      | none =>
        match env.createErr with
        | some e => ⟨none, .fails 0 e, true, none⟩
        | none =>
          match env.copyOutcome with
          | some (n, e) =>
            let written := resp.body.take n
            ⟨some written, .fails written.length e, true, some length⟩
          | none =>
            ⟨some resp.body, .ok resp.body.length, true, some length⟩

/-- Observable outcome of `DownloadFile`: final file contents, returned
pair, whether the preliminary request ran, and whether the download GET
ran. -/
structure DLOut where
  fs : Option (List Nat)
  res : DLRes
  headIssued : Bool
  bodyIssued : Bool
deriving DecidableEq

/-- Wraps a `writeToFileFromURL` outcome as the outcome of the enclosing
`DownloadFile` call. -/
def wrapW (headIssued : Bool) (w : WOut) : DLOut :=
  ⟨w.fs, w.res, headIssued, w.issued⟩

/-- `DownloadFile` (dl.go lines 98-155): builds the request (the nil
cookies pointer panics here, before the existence check); if the file
does not exist, downloads unconditionally; otherwise issues the
preliminary GET, returning its transport error; falls back to an
unconditional download when `Content-Length` is `""` or unparseable;
opens and stats the file, returning local I/O errors; skips with
`(0, nil)` when the size equals the parsed length, else downloads. -/
def DownloadFile (env : DLEnv) (ua : String) (headers : List (String × String))
    (cookies : Option (List Cookie)) (fs : Option (List Nat)) : DLOut :=
  match env.newReqErr with
  | some e => ⟨fs, .fails 0 e, false, false⟩
  | none =>
  match cookies with
  | none => ⟨fs, .panics, false, false⟩
  | some cs =>
    let _req := buildReq ua headers cs
    if FileExists fs = false then
      wrapW false (writeToFileFromURL env ua headers (some cs) fs)
    else
      match env.headResult with
      | .error e => ⟨fs, .fails 0 e, true, false⟩
      | .ok head =>
        if hGet head.headers "Content-Length" == "" then
          wrapW true (writeToFileFromURL env ua headers (some cs) fs)
        else
          match parseInt (hGet head.headers "Content-Length") with
          | none => wrapW true (writeToFileFromURL env ua headers (some cs) fs)
          | some length =>
            match env.openErr with
            | some e => ⟨fs, .fails 0 e, true, false⟩
            | none =>
            match env.statErr with
            | some e => ⟨fs, .fails 0 e, true, false⟩
            | none =>
              if ((fs.getD []).length : Int) == length then
                ⟨fs, .ok 0, true, false⟩
              else
                wrapW true (writeToFileFromURL env ua headers (some cs) fs)

/-! ### Header-map lemmas -/

theorem hGet_hSet_self (h : Header) (k v : String) : hGet (hSet h k v) k = v := by
  simp [hGet, hSet]

theorem hGet_hSet_of_ne (h : Header) (k v q : String)
    (hne : canonicalKey q ≠ canonicalKey k) : hGet (hSet h k v) q = hGet h q := by
  simp [hGet, hSet, hne]

/-- Folding `Set` over header entries none of which canonicalise to the
queried name leaves the queried value unchanged. -/
theorem hGet_foldl_hSet_of_not_mem (l : List (String × String)) (h : Header) (q : String)
    (hl : ∀ p ∈ l, canonicalKey p.1 ≠ canonicalKey q) :
    hGet (l.foldl (fun h p => hSet h p.1 p.2) h) q = hGet h q := by
  induction l generalizing h with
  | nil => rfl
  | cons p rest ih =>
    have hrest : ∀ r ∈ rest, canonicalKey r.1 ≠ canonicalKey q := fun r hr => hl r (by simp [hr])
    have hp : canonicalKey p.1 ≠ canonicalKey q := hl p (by simp)
    simp only [List.foldl_cons]
    rw [ih _ hrest, hGet_hSet_of_ne _ _ _ _ (fun e => hp e.symm)]

/-- A header entry that no later entry shadows (same canonical name) is
the value the folded map reports for its name. -/
theorem hGet_foldl_hSet_last (l₁ l₂ : List (String × String)) (k v : String) (h : Header)
    (hl₂ : ∀ p ∈ l₂, canonicalKey p.1 ≠ canonicalKey k) :
    hGet ((l₁ ++ (k, v) :: l₂).foldl (fun h p => hSet h p.1 p.2) h) k = v := by
  rw [List.foldl_append]
  simp only [List.foldl_cons]
  rw [hGet_foldl_hSet_of_not_mem _ _ _ hl₂, hGet_hSet_self]

/-! ### Cookie-attachment lemmas -/

theorem cookieString_infix_addCookie (h : Header) (c : Cookie) :
    (cookieString c).data <:+: (hGet (addCookie h c) "Cookie").data := by
  unfold addCookie
  by_cases he : hGet h "Cookie" = ""
  · rw [if_pos he, hGet_hSet_self]
  · rw [if_neg he, hGet_hSet_self, String.data_append]
    exact (List.suffix_append _ _).isInfix

theorem infix_cookie_addCookie (h : Header) (c : Cookie) (s : List Char)
    (hs : s <:+: (hGet h "Cookie").data) :
    s <:+: (hGet (addCookie h c) "Cookie").data := by
  unfold addCookie
  by_cases he : hGet h "Cookie" = ""
  · rw [he] at hs
    have hnil : s = [] := List.eq_nil_of_infix_nil hs
    subst hnil
    exact List.nil_infix
  · rw [if_neg he, hGet_hSet_self, String.data_append, String.data_append]
    exact (hs.trans (List.infix_append [] _ _)).trans (List.infix_append [] _ _)

theorem infix_cookie_foldl_addCookie (cs : List Cookie) (h : Header) (s : List Char)
    (hs : s <:+: (hGet h "Cookie").data) :
    s <:+: (hGet (cs.foldl addCookie h) "Cookie").data := by
  induction cs generalizing h with
  | nil => exact hs
  | cons c rest ih => exact ih _ (infix_cookie_addCookie h c s hs)

/-- After folding `AddCookie` over the whole cookie list, the cookie
`name=value` pair occurs in the `Cookie` header. -/
theorem cookieString_infix_foldl (cs : List Cookie) (h : Header) :
    ∀ c ∈ cs, (cookieString c).data <:+: (hGet (cs.foldl addCookie h) "Cookie").data := by
  induction cs generalizing h with
  | nil => intro c hc; cases hc
  | cons c0 rest ih =>
    intro c hc
    rcases List.mem_cons.mp hc with rfl | hmem
    · exact infix_cookie_foldl_addCookie rest _ _ (cookieString_infix_addCookie h c)
    · exact ih _ c hmem

/-! ### Auxiliary facts about the model -/

theorem parseInt_empty : parseInt "" = none := rfl

theorem hGet_ne_empty_of_parseInt (s : String) (L : Int) (hp : parseInt s = some L) :
    s ≠ "" := by
  intro he
  rw [he, parseInt_empty] at hp
  cases hp

/-! ### Claims -/

/-- C1: when the destination file exists and its byte size equals the
`Content-Length` advertised by the preliminary request (which succeeded,
with a parseable header, and the local open/stat succeeded), `DownloadFile`
returns `(0, nil)` and leaves the file contents untouched, whatever those
contents are: no download request is even issued. -/
theorem C1_skip_when_size_matches (env : DLEnv) (ua : String)
    (headers : List (String × String)) (cs : List Cookie) (old : List Nat)
    (head : Response) (L : Int)
    (hreq : env.newReqErr = none)
    (hhead : env.headResult = .ok head)
    (hparse : parseInt (hGet head.headers "Content-Length") = some L)
    (hopen : env.openErr = none)
    (hstat : env.statErr = none)
    (hsize : (old.length : Int) = L) :
    DownloadFile env ua headers (some cs) (some old) = ⟨some old, .ok 0, true, false⟩ := by
  have hne := hGet_ne_empty_of_parseInt _ _ hparse
  simp [DownloadFile, FileExists, hreq, hhead, hne, hparse, hopen, hstat, hsize]

/-- C1 witness: a 2-byte file whose bytes differ from the remote body but
whose size matches the advertised length is skipped. -/
theorem C1_skip_when_size_matches_witness :
    DownloadFile ⟨none, .ok ⟨200, hSet hEmpty "Content-Length" "2", [9, 9]⟩, none, none,
        .ok ⟨200, hSet hEmpty "Content-Length" "2", [9, 9]⟩, none, none, none⟩
      "dl v0.0.1" [] (some []) (some [5, 5]) = ⟨some [5, 5], .ok 0, true, false⟩ :=
  C1_skip_when_size_matches _ _ _ _ _ _ 2 rfl rfl (by decide) rfl rfl (by decide)

/-- C2: when no file exists at the destination, `DownloadFile` downloads
unconditionally: the preliminary request is never issued, and (when the
GET and the file creation succeed) the full body is written and its exact
byte count returned. -/
theorem C2_no_file_unconditional (env : DLEnv) (ua : String)
    (headers : List (String × String)) (cs : List Cookie) (resp : Response)
    (hreq : env.newReqErr = none)
    (hget : env.getResult = .ok resp)
    (hcreate : env.createErr = none)
    (hcopy : env.copyOutcome = none) :
    DownloadFile env ua headers (some cs) none =
      ⟨some resp.body, .ok resp.body.length, false, true⟩ := by
  simp [DownloadFile, writeToFileFromURL, wrapW, FileExists, hreq, hget, hcreate, hcopy]

/-- C2 witness: downloading a 3-byte body to an absent destination writes
those 3 bytes and returns 3, without a preliminary request. -/
theorem C2_no_file_unconditional_witness :
    DownloadFile ⟨none, .error "head never sent", none, none,
        .ok ⟨200, hSet hEmpty "Content-Length" "3", [1, 2, 3]⟩, none, none, none⟩
      "dl v0.0.1" [] (some []) none = ⟨some [1, 2, 3], .ok 3, false, true⟩ :=
  C2_no_file_unconditional _ _ _ _ _ rfl rfl rfl rfl

/-- C3 counterexample: destination holds 2 bytes, the server advertises
and sends a 1-byte body.  `DownloadFile` receives 1 byte and returns 1,
but because the existing file is opened `O_RDWR` without truncation the
resulting file is `[1, 0]`: its size is 2, not the 1 byte received. -/
theorem C3_counterexample :
    DownloadFile ⟨none, .ok ⟨200, hSet hEmpty "Content-Length" "1", [1]⟩, none, none,
        .ok ⟨200, hSet hEmpty "Content-Length" "1", [1]⟩, none, none, none⟩
      "dl v0.0.1" [] (some []) (some [0, 0]) = ⟨some [1, 0], .ok 1, true, true⟩ ∧
    ¬ ((some [1, 0] : Option (List Nat)).getD []).length = 1 := by
  constructor
  · decide
  · decide

/-- C3 amended: when the sizes differ, `DownloadFile` downloads and writes
the body over the front of the existing file without truncating it: the
new contents are the body followed by the surviving tail of the old
contents, the returned count is the body length, and the resulting size is
the maximum of the old size and the body length (so it equals the bytes
received exactly when the body is at least as long as the old file). -/
theorem C3_amended_overwrite_no_truncate (env : DLEnv) (ua : String)
    (headers : List (String × String)) (cs : List Cookie) (old : List Nat)
    (head : Response) (L : Int) (resp : Response)
    (hreq : env.newReqErr = none)
    (hhead : env.headResult = .ok head)
    (hparse : parseInt (hGet head.headers "Content-Length") = some L)
    (hopen : env.openErr = none)
    (hstat : env.statErr = none)
    (hsize : (old.length : Int) ≠ L)
    (hget : env.getResult = .ok resp)
    (hofile : env.openFileErr = none)
    (hcopy : env.copyOutcome = none) :
    DownloadFile env ua headers (some cs) (some old) =
      ⟨some (resp.body ++ old.drop resp.body.length), .ok resp.body.length, true, true⟩ ∧
    (resp.body ++ old.drop resp.body.length).length = max old.length resp.body.length := by
  have hne := hGet_ne_empty_of_parseInt _ _ hparse
  constructor
  · simp [DownloadFile, writeToFileFromURL, wrapW, FileExists, hreq, hhead, hne, hparse,
      hopen, hstat, hsize, hget, hofile, hcopy]
  · simp only [List.length_append, List.length_drop]
    omega

/-- C3 amended witness: the counterexample scenario, now with the file
ending as body-plus-old-tail of size `max 2 1 = 2`. -/
theorem C3_amended_overwrite_no_truncate_witness :
    DownloadFile ⟨none, .ok ⟨200, hSet hEmpty "Content-Length" "1", [1]⟩, none, none,
        .ok ⟨200, hSet hEmpty "Content-Length" "1", [1]⟩, none, none, none⟩
      "dl v0.0.1" [] (some []) (some [0, 0]) =
      ⟨some ([1] ++ [0, 0].drop 1), .ok 1, true, true⟩ ∧
    ([1] ++ ([0, 0] : List Nat).drop 1).length = max 2 1 :=
  C3_amended_overwrite_no_truncate _ _ _ _ [0, 0] _ 1 ⟨200, hSet hEmpty "Content-Length" "1", [1]⟩
    rfl rfl (by decide) rfl rfl (by decide) rfl rfl rfl

/-- C4 counterexample: destination exists and the preliminary request
fails with a transport error.  `DownloadFile` returns `(0, err)` without
fetching or writing anything — it does not fall over to an unconditional
download in this case. -/
theorem C4_counterexample :
    DownloadFile ⟨none, .error "net down", none, none,
        .ok ⟨200, hSet hEmpty "Content-Length" "1", [1]⟩, none, none, none⟩
      "dl v0.0.1" [] (some []) (some [0]) =
      ⟨some [0], .fails 0 "net down", true, false⟩ := by
  decide

/-- C4 amended: with an existing destination, `DownloadFile` falls over to
an unconditional download when the preliminary response
`Content-Length` is absent or unparseable; a transport error of the
preliminary request itself is instead returned to the caller with a zero
count and nothing written. -/
theorem C4_amended_failover_only_on_header (env : DLEnv) (ua : String)
    (headers : List (String × String)) (cs : List Cookie) (old : List Nat)
    (hreq : env.newReqErr = none) :
    (∀ e, env.headResult = .error e →
      DownloadFile env ua headers (some cs) (some old) =
        ⟨some old, .fails 0 e, true, false⟩) ∧
    (∀ head, env.headResult = .ok head →
      (hGet head.headers "Content-Length" = "" ∨
        parseInt (hGet head.headers "Content-Length") = none) →
      DownloadFile env ua headers (some cs) (some old) =
        wrapW true (writeToFileFromURL env ua headers (some cs) (some old))) := by
  constructor
  · intro e he
    simp [DownloadFile, FileExists, hreq, he]
  · intro head hhead hcl
    rcases hcl with hcl | hcl
    · simp [DownloadFile, FileExists, hreq, hhead, hcl]
    · by_cases hne : hGet head.headers "Content-Length" = ""
      · simp [DownloadFile, FileExists, hreq, hhead, hne]
      · simp [DownloadFile, FileExists, hreq, hhead, hne, hcl]

/-- C4 amended witness: both branches at concrete inputs — a preliminary
transport error is returned, and an unparseable `Content-Length` falls
over to the download. -/
theorem C4_amended_failover_only_on_header_witness :
    (∀ e, (⟨none, .error "net down", none, none,
          .ok ⟨200, hEmpty, [1]⟩, none, none, none⟩ : DLEnv).headResult = .error e →
      DownloadFile ⟨none, .error "net down", none, none, .ok ⟨200, hEmpty, [1]⟩, none, none, none⟩
          "dl v0.0.1" [] (some []) (some [0]) =
        ⟨some [0], .fails 0 e, true, false⟩) ∧
    (∀ head, (⟨none, .error "net down", none, none,
          .ok ⟨200, hEmpty, [1]⟩, none, none, none⟩ : DLEnv).headResult = .ok head →
      (hGet head.headers "Content-Length" = "" ∨
        parseInt (hGet head.headers "Content-Length") = none) →
      DownloadFile ⟨none, .error "net down", none, none, .ok ⟨200, hEmpty, [1]⟩, none, none, none⟩
          "dl v0.0.1" [] (some []) (some [0]) =
        wrapW true (writeToFileFromURL ⟨none, .error "net down", none, none,
          .ok ⟨200, hEmpty, [1]⟩, none, none, none⟩ "dl v0.0.1" [] (some []) (some [0]))) :=
  C4_amended_failover_only_on_header _ _ _ _ _ rfl

/-- C5: whenever the remote length is unknown — the destination does not
exist (so no preliminary request is made), or the preliminary response
carries no `Content-Length`, or an unparseable one — `DownloadFile`
performs the full download: the GET is issued, the body lands at the
front of the destination, and the byte count of the body is returned. -/
theorem C5_unknown_length_full_download (env : DLEnv) (ua : String)
    (headers : List (String × String)) (cs : List Cookie) (fs : Option (List Nat))
    (resp : Response)
    (hreq : env.newReqErr = none)
    (hcase : fs = none ∨ ∃ head, env.headResult = .ok head ∧
      (hGet head.headers "Content-Length" = "" ∨
        parseInt (hGet head.headers "Content-Length") = none))
    (hget : env.getResult = .ok resp)
    (hofile : env.openFileErr = none)
    (hcreate : env.createErr = none)
    (hcopy : env.copyOutcome = none) :
    (DownloadFile env ua headers (some cs) fs).bodyIssued = true ∧
    (DownloadFile env ua headers (some cs) fs).res = .ok resp.body.length ∧
    (DownloadFile env ua headers (some cs) fs).fs =
      some (resp.body ++ (fs.getD []).drop resp.body.length) := by
  have hw : ∀ old, writeToFileFromURL env ua headers (some cs) (some old) =
      ⟨some (resp.body ++ old.drop resp.body.length), .ok resp.body.length, true,
        some (parseIntGo (hGet resp.headers "Content-Length")).1⟩ := by
    intro old
    simp [writeToFileFromURL, hreq, hget, hofile, hcopy]
  rcases hcase with rfl | ⟨head, hhead, hcl⟩
  · simp [DownloadFile, writeToFileFromURL, wrapW, FileExists, hreq, hget, hcreate, hcopy]
  · match fs with
    | none =>
      simp [DownloadFile, writeToFileFromURL, wrapW, FileExists, hreq, hget, hcreate, hcopy]
    | some old =>
      rcases hcl with hcl | hcl
      · simp [DownloadFile, FileExists, wrapW, hreq, hhead, hcl, hw]
      · by_cases hne : hGet head.headers "Content-Length" = ""
        · simp [DownloadFile, FileExists, wrapW, hreq, hhead, hne, hw]
        · simp [DownloadFile, FileExists, wrapW, hreq, hhead, hne, hcl, hw]

/-- C5 witness: an existing 2-byte file plus a preliminary response with
no `Content-Length` still produces a full 3-byte download. -/
theorem C5_unknown_length_full_download_witness :
    (DownloadFile ⟨none, .ok ⟨200, hEmpty, [1, 2, 3]⟩, none, none,
        .ok ⟨200, hEmpty, [1, 2, 3]⟩, none, none, none⟩
      "dl v0.0.1" [] (some []) (some [7, 7])).bodyIssued = true ∧
    (DownloadFile ⟨none, .ok ⟨200, hEmpty, [1, 2, 3]⟩, none, none,
        .ok ⟨200, hEmpty, [1, 2, 3]⟩, none, none, none⟩
      "dl v0.0.1" [] (some []) (some [7, 7])).res = .ok 3 ∧
    (DownloadFile ⟨none, .ok ⟨200, hEmpty, [1, 2, 3]⟩, none, none,
        .ok ⟨200, hEmpty, [1, 2, 3]⟩, none, none, none⟩
      "dl v0.0.1" [] (some []) (some [7, 7])).fs =
        some ([1, 2, 3] ++ ([7, 7] : List Nat).drop 3) :=
  C5_unknown_length_full_download _ _ _ _ (some [7, 7]) ⟨200, hEmpty, [1, 2, 3]⟩
    rfl (Or.inr ⟨⟨200, hEmpty, [1, 2, 3]⟩, rfl, Or.inl (by decide)⟩) rfl rfl rfl rfl

/-- C6: destination exists, preliminary request succeeded and its
`Content-Length` parsed; if `os.Open` fails, or it succeeds and `Stat`
fails, `DownloadFile` returns that very error with a zero count, leaves
the file untouched and never issues the download request. -/
theorem C6_local_io_error_surfaced (env : DLEnv) (ua : String)
    (headers : List (String × String)) (cs : List Cookie) (old : List Nat)
    (head : Response) (L : Int)
    (hreq : env.newReqErr = none)
    (hhead : env.headResult = .ok head)
    (hparse : parseInt (hGet head.headers "Content-Length") = some L) :
    (∀ e, env.openErr = some e →
      DownloadFile env ua headers (some cs) (some old) =
        ⟨some old, .fails 0 e, true, false⟩) ∧
    (∀ e, env.openErr = none → env.statErr = some e →
      DownloadFile env ua headers (some cs) (some old) =
        ⟨some old, .fails 0 e, true, false⟩) := by
  have hne := hGet_ne_empty_of_parseInt _ _ hparse
  constructor
  · intro e he
    simp [DownloadFile, FileExists, hreq, hhead, hne, hparse, he]
  · intro e hopen he
    simp [DownloadFile, FileExists, hreq, hhead, hne, hparse, hopen, he]

/-- C6 witness: a failing `os.Open` on the existing file surfaces as the
returned error. -/
theorem C6_local_io_error_surfaced_witness :
    (∀ e, (⟨none, .ok ⟨200, hSet hEmpty "Content-Length" "1", [1]⟩, some "open failed", none,
          .ok ⟨200, hSet hEmpty "Content-Length" "1", [1]⟩, none, none, none⟩ : DLEnv).openErr = some e →
      DownloadFile ⟨none, .ok ⟨200, hSet hEmpty "Content-Length" "1", [1]⟩, some "open failed", none,
          .ok ⟨200, hSet hEmpty "Content-Length" "1", [1]⟩, none, none, none⟩
        "dl v0.0.1" [] (some []) (some [0]) = ⟨some [0], .fails 0 e, true, false⟩) ∧
    (∀ e, (⟨none, .ok ⟨200, hSet hEmpty "Content-Length" "1", [1]⟩, some "open failed", none,
          .ok ⟨200, hSet hEmpty "Content-Length" "1", [1]⟩, none, none, none⟩ : DLEnv).openErr = none →
      (⟨none, .ok ⟨200, hSet hEmpty "Content-Length" "1", [1]⟩, some "open failed", none,
          .ok ⟨200, hSet hEmpty "Content-Length" "1", [1]⟩, none, none, none⟩ : DLEnv).statErr = some e →
      DownloadFile ⟨none, .ok ⟨200, hSet hEmpty "Content-Length" "1", [1]⟩, some "open failed", none,
          .ok ⟨200, hSet hEmpty "Content-Length" "1", [1]⟩, none, none, none⟩
        "dl v0.0.1" [] (some []) (some [0]) = ⟨some [0], .fails 0 e, true, false⟩) :=
  C6_local_io_error_surfaced _ _ _ _ _ _ 1 rfl rfl (by decide)

/-- C7 counterexample: cookies are carried in the `Cookie` header, and
the supplied-headers loop runs after `AddCookie`, so a supplied header
named `Cookie` replaces the accumulated cookie header: the supplied
cookie `session=abc` is absent from the outbound request. -/
theorem C7_counterexample :
    hGet (buildReq "dl v0.0.1" [("Cookie", "x")] [⟨"session", "abc"⟩]) "Cookie" = "x" ∧
    ¬ (cookieString ⟨"session", "abc"⟩).data <:+:
      (hGet (buildReq "dl v0.0.1" [("Cookie", "x")] [⟨"session", "abc"⟩]) "Cookie").data := by
  constructor
  · decide
  · decide

/-- C7 amended: in every outbound request (all four functions build it
identically via the same three steps), (a) provided no supplied header
canonicalises to `Cookie`, each supplied cookie and its `name=value` pair
appears in the request `Cookie` header, and (b) every supplied header
entry that no later entry shadows becomes the request value for its
name, under case-insensitive (canonicalised) matching — in particular a
supplied `User-Agent` in any casing replaces the process-wide default. -/
theorem C7_amended_cookies_and_overrides (ua : String)
    (headers : List (String × String)) (cookies : List Cookie) :
    ((∀ p ∈ headers, canonicalKey p.1 ≠ "Cookie") →
      ∀ c ∈ cookies, (cookieString c).data <:+:
        (hGet (buildReq ua headers cookies) "Cookie").data) ∧
    (∀ l₁ l₂ k v, headers = l₁ ++ (k, v) :: l₂ →
      (∀ p ∈ l₂, canonicalKey p.1 ≠ canonicalKey k) →
      hGet (buildReq ua headers cookies) k = v) := by
  constructor
  · intro hnc c hc
    have hck : canonicalKey "Cookie" = "Cookie" := by decide
    unfold buildReq
    rw [hGet_foldl_hSet_of_not_mem headers _ "Cookie" (by
      intro p hp
      rw [hck]
      exact hnc p hp)]
    exact cookieString_infix_foldl cookies _ c hc
  · intro l₁ l₂ k v hsplit hl₂
    unfold buildReq
    rw [hsplit]
    exact hGet_foldl_hSet_last l₁ l₂ k v _ hl₂

/-- C7 amended witness: a cookie survives alongside an unrelated header,
and a lowercase `user-agent` header replaces the default user agent. -/
theorem C7_amended_cookies_and_overrides_witness :
    ((∀ p ∈ [("user-agent", "curl/8")], canonicalKey p.1 ≠ "Cookie") →
      ∀ c ∈ [(⟨"session", "abc"⟩ : Cookie)], (cookieString c).data <:+:
        (hGet (buildReq "dl v0.0.1" [("user-agent", "curl/8")] [⟨"session", "abc"⟩]) "Cookie").data) ∧
    (∀ l₁ l₂ k v, [("user-agent", "curl/8")] = l₁ ++ (k, v) :: l₂ →
      (∀ p ∈ l₂, canonicalKey p.1 ≠ canonicalKey k) →
      hGet (buildReq "dl v0.0.1" [("user-agent", "curl/8")] [⟨"session", "abc"⟩]) k = v) :=
  C7_amended_cookies_and_overrides "dl v0.0.1" [("user-agent", "curl/8")] [⟨"session", "abc"⟩]

/-- C8: `GetBodyFromURL` never inspects the status code: whenever request
construction and transport succeed it returns the body bytes as sent —
the status of the response (404 included) is universally quantified — and any
error it returns is a request-construction or transport error. -/
theorem C8_body_ignores_status (env : GetEnv) (ua : String)
    (headers : List (String × String)) (cs : List Cookie) :
    (∀ resp, env.newReqErr = none → env.doResult = .ok resp →
      GetBodyFromURL env ua headers (some cs) = .ok resp.body) ∧
    (∀ e, GetBodyFromURL env ua headers (some cs) = .fails e →
      env.newReqErr = some e ∨ env.doResult = .error e) := by
  constructor
  · intro resp hreq hdo
    simp [GetBodyFromURL, hreq, hdo]
  · intro e hres
    unfold GetBodyFromURL at hres
    match hq : env.newReqErr with
    | some e0 =>
      rw [hq] at hres
      cases hres
      exact Or.inl rfl
    | none =>
      rw [hq] at hres
      match hd : env.doResult with
      | .error e0 =>
        rw [hd] at hres
        cases hres
        exact Or.inr rfl
      | .ok resp =>
        rw [hd] at hres
        cases hres

/-- C8 witness: a 404 response with body `[4, 0, 4]` is returned whole
and without error. -/
theorem C8_body_ignores_status_witness :
    (∀ resp, (⟨none, .ok ⟨404, hEmpty, [4, 0, 4]⟩⟩ : GetEnv).newReqErr = none →
      (⟨none, .ok ⟨404, hEmpty, [4, 0, 4]⟩⟩ : GetEnv).doResult = .ok resp →
      GetBodyFromURL ⟨none, .ok ⟨404, hEmpty, [4, 0, 4]⟩⟩ "dl v0.0.1" [] (some []) = .ok resp.body) ∧
    (∀ e, GetBodyFromURL ⟨none, .ok ⟨404, hEmpty, [4, 0, 4]⟩⟩ "dl v0.0.1" [] (some []) = .fails e →
      (⟨none, .ok ⟨404, hEmpty, [4, 0, 4]⟩⟩ : GetEnv).newReqErr = some e ∨
      (⟨none, .ok ⟨404, hEmpty, [4, 0, 4]⟩⟩ : GetEnv).doResult = .error e) :=
  C8_body_ignores_status ⟨none, .ok ⟨404, hEmpty, [4, 0, 4]⟩⟩ "dl v0.0.1" [] []

/-- C9: on the unconditional-download path the headers of the response — in
particular whether its `Content-Length` parses — have no effect on the
file contents, the returned pair, or whether the GET ran; only the
humanised length in the progress line can differ. -/
theorem C9_parse_failure_only_cosmetic (env : DLEnv) (ua : String)
    (headers : List (String × String)) (cs : List Cookie) (fs : Option (List Nat))
    (resp : Response) (h2 : Header)
    (hget : env.getResult = .ok resp) :
    (writeToFileFromURL env ua headers (some cs) fs).fs =
      (writeToFileFromURL { env with getResult := .ok ⟨resp.status, h2, resp.body⟩ }
        ua headers (some cs) fs).fs ∧
    (writeToFileFromURL env ua headers (some cs) fs).res =
      (writeToFileFromURL { env with getResult := .ok ⟨resp.status, h2, resp.body⟩ }
        ua headers (some cs) fs).res ∧
    (writeToFileFromURL env ua headers (some cs) fs).issued =
      (writeToFileFromURL { env with getResult := .ok ⟨resp.status, h2, resp.body⟩ }
        ua headers (some cs) fs).issued := by
  match hq : env.newReqErr with
  | some e => simp [writeToFileFromURL, hq]
  | none =>
    match fs with
    | some old =>
      match ho : env.openFileErr with
      | some e => simp [writeToFileFromURL, hq, hget, ho]
      | none =>
        match hc : env.copyOutcome with
        | some (n, e) => simp [writeToFileFromURL, hq, hget, ho, hc]
        | none => simp [writeToFileFromURL, hq, hget, ho, hc]
    | none =>
      match ho : env.createErr with
      | some e => simp [writeToFileFromURL, hq, hget, ho]
      | none =>
        match hc : env.copyOutcome with
        | some (n, e) => simp [writeToFileFromURL, hq, hget, ho, hc]
        | none => simp [writeToFileFromURL, hq, hget, ho, hc]

/-- C9 witness: a response with `Content-Length: bogus` and one with no
headers at all produce identical file contents, return pair and GET
activity. -/
theorem C9_parse_failure_only_cosmetic_witness :
    (writeToFileFromURL ⟨none, .error "unused", none, none,
        .ok ⟨200, hSet hEmpty "Content-Length" "bogus", [1, 2]⟩, none, none, none⟩
      "dl v0.0.1" [] (some []) (some [9])).fs =
      (writeToFileFromURL ⟨none, .error "unused", none, none,
          .ok ⟨200, hEmpty, [1, 2]⟩, none, none, none⟩
        "dl v0.0.1" [] (some []) (some [9])).fs ∧
    (writeToFileFromURL ⟨none, .error "unused", none, none,
        .ok ⟨200, hSet hEmpty "Content-Length" "bogus", [1, 2]⟩, none, none, none⟩
      "dl v0.0.1" [] (some []) (some [9])).res =
      (writeToFileFromURL ⟨none, .error "unused", none, none,
          .ok ⟨200, hEmpty, [1, 2]⟩, none, none, none⟩
        "dl v0.0.1" [] (some []) (some [9])).res ∧
    (writeToFileFromURL ⟨none, .error "unused", none, none,
        .ok ⟨200, hSet hEmpty "Content-Length" "bogus", [1, 2]⟩, none, none, none⟩
      "dl v0.0.1" [] (some []) (some [9])).issued =
      (writeToFileFromURL ⟨none, .error "unused", none, none,
          .ok ⟨200, hEmpty, [1, 2]⟩, none, none, none⟩
        "dl v0.0.1" [] (some []) (some [9])).issued :=
  C9_parse_failure_only_cosmetic ⟨none, .error "unused", none, none,
      .ok ⟨200, hSet hEmpty "Content-Length" "bogus", [1, 2]⟩, none, none, none⟩
    "dl v0.0.1" [] [] (some [9]) ⟨200, hSet hEmpty "Content-Length" "bogus", [1, 2]⟩ hEmpty rfl

/-- C10 counterexample: a call with a nil cookies pointer where
`http.NewRequest` fails returns that error instead of panicking — the
cookie dereference is not the first thing the functions do. -/
theorem C10_counterexample :
    GetBodyFromURL ⟨some "parse error", .ok ⟨200, hEmpty, []⟩⟩ "dl v0.0.1" [] none =
      .fails "parse error" ∧
    GetBodyFromURL ⟨some "parse error", .ok ⟨200, hEmpty, []⟩⟩ "dl v0.0.1" [] none ≠
      .panics := by
  constructor
  · decide
  · decide

/-- C10 amended: each function dereferences the cookies pointer right
after `http.NewRequest` succeeds; whenever request construction succeeds
and the cookies pointer is nil, the call panics before any network or
filesystem activity (in `DownloadFile` even before the existence check,
leaving the file untouched). -/
theorem C10_amended_nil_cookies_panic (ua : String)
    (headers : List (String × String)) :
    (∀ genv : GetEnv, genv.newReqErr = none →
      GetBodyFromURL genv ua headers none = .panics) ∧
    (∀ genv : GetEnv, genv.newReqErr = none →
      GetRespFromURL genv ua headers none = .panics) ∧
    (∀ (denv : DLEnv) (fs : Option (List Nat)), denv.newReqErr = none →
      DownloadFile denv ua headers none fs = ⟨fs, .panics, false, false⟩) ∧
    (∀ (denv : DLEnv) (fs : Option (List Nat)), denv.newReqErr = none →
      writeToFileFromURL denv ua headers none fs = ⟨fs, .panics, false, none⟩) := by
  refine ⟨?_, ?_, ?_, ?_⟩
  · intro genv hreq
    simp [GetBodyFromURL, hreq]
  · intro genv hreq
    simp [GetRespFromURL, hreq]
  · intro denv fs hreq
    simp [DownloadFile, hreq]
  · intro denv fs hreq
    simp [writeToFileFromURL, hreq]

/-- C10 amended witness: with request construction succeeding, all four
functions panic on the nil cookies pointer at concrete inputs. -/
theorem C10_amended_nil_cookies_panic_witness :
    (∀ genv : GetEnv, genv.newReqErr = none →
      GetBodyFromURL genv "dl v0.0.1" [] none = .panics) ∧
    (∀ genv : GetEnv, genv.newReqErr = none →
      GetRespFromURL genv "dl v0.0.1" [] none = .panics) ∧
    (∀ (denv : DLEnv) (fs : Option (List Nat)), denv.newReqErr = none →
      DownloadFile denv "dl v0.0.1" [] none fs = ⟨fs, .panics, false, false⟩) ∧
    (∀ (denv : DLEnv) (fs : Option (List Nat)), denv.newReqErr = none →
      writeToFileFromURL denv "dl v0.0.1" [] none fs = ⟨fs, .panics, false, none⟩) :=
  C10_amended_nil_cookies_panic "dl v0.0.1" []

end Dl
